import Mathlib

/-!
Verification of the Clarity Coach backend (`src/backend/clarity.py`).

The embedding models the session store, the non-streaming `/chat` handler,
the streaming `/chat_stream` generator, and `/reset`.  The upstream
completion service is an oracle parameter: a `UpOutcome` for the
non-streaming call (success text or raised error) and a `StreamOutcome`
for the streaming call (the sequence of chunk tokens delivered before the
stream either ends normally or raises).

Python specifics embedded faithfully:
  * `req.session_id or "default"` — both `None` and `""` are falsy;
  * `hist[-MAX_HISTORY_MESSAGES:]` — `takeLast`;
  * `if token:` in the stream loop — `None` and `""` are both skipped;
  * `"".join(reply_parts).strip()` — `String.join` then `pyStrip`;
  * aliasing: `hist = SESSIONS.setdefault(sid, [])` returns the stored
    list itself, so `hist.append(...)` mutates the store in place; the
    trimmed write-back `SESSIONS[sid] = hist[-4:]` happens only where the
    source performs it.
-/

namespace Clarity

/-- One conversation turn: the Python dict `{"role": ..., "content": ...}`. -/
structure Msg where
  role : String
  content : String
deriving DecidableEq, Repr

/-- The in-memory session store `SESSIONS`.  A missing key and an empty
list are indistinguishable through `session_history` (`setdefault(sid, [])`),
so the store is modelled as a total function defaulting to `[]`. -/
abbrev Store := String → List Msg

/-- `MAX_HISTORY_MESSAGES = 4` (clarity.py line 23). -/
def MAX_HISTORY_MESSAGES : Nat := 4

/-- `SYSTEM_PROMPT` (clarity.py lines 34–37). -/
def SYSTEM_PROMPT : String :=
  "You are Clarity Coach, a concise, encouraging assistant. Answer clearly, step-by-step when asked, and prefer practical guidance."

/-- Python slice `xs[-n:]`: the last `n` elements (the whole list when
shorter than `n`). -/
def takeLast (n : Nat) (xs : List α) : List α :=
  xs.drop (xs.length - n)

/-- Python `str.isspace()` for one character: CPython's whitespace table
is `0x09`–`0x0D`, `0x1C`–`0x1F`, space, `0x85`, `0xA0`, `0x1680`,
`0x2000`–`0x200A`, `0x2028`, `0x2029`, `0x202F`, `0x205F`, `0x3000`.
`str.strip()` removes exactly these characters. -/
def pyIsSpace (c : Char) : Bool :=
  decide ((0x09 ≤ c.toNat ∧ c.toNat ≤ 0x0D) ∨ c.toNat = 0x20 ∨
    (0x1C ≤ c.toNat ∧ c.toNat ≤ 0x1F) ∨ c.toNat = 0x85 ∨ c.toNat = 0xA0 ∨
    c.toNat = 0x1680 ∨ (0x2000 ≤ c.toNat ∧ c.toNat ≤ 0x200A) ∨
    c.toNat = 0x2028 ∨ c.toNat = 0x2029 ∨ c.toNat = 0x202F ∨ c.toNat = 0x205F ∨
    c.toNat = 0x3000)

/-- Python `str.strip()`: remove leading and trailing whitespace
characters (`pyIsSpace`).  Implemented structurally over the character
list so it evaluates by kernel reduction. -/
def pyStrip (s : String) : String :=
  ⟨((s.data.dropWhile pyIsSpace).reverse.dropWhile pyIsSpace).reverse⟩

/-- `req.session_id or "default"`: Python `or` replaces any falsy value,
so both `None` and the empty string collapse to `"default"`.  (`none`
models Python `None`; a request with the field absent gets the pydantic
default `"default"`, i.e. `some "default"`.) -/
def sidOf (session_id : Option String) : String :=
  match session_id with
  | none => "default"
  | some s => if s = "" then "default" else s

/-- Outcome of the synchronous upstream call in `/chat`: either a reply
text extracted from the payload, or an exception (network error, timeout,
malformed payload — anything caught by `except Exception as e`),
carrying `str(e)`. -/
inductive UpOutcome where
  | ok (text : String)
  | err (msg : String)
deriving DecidableEq, Repr

/-- Result of a `/chat` call: the JSON reply, the store after the call,
and the `messages` list sent upstream (`none` when no upstream call was
attempted). -/
structure ChatResult where
  reply : String
  store : Store
  sentMessages : Option (List Msg)

/-- The `/chat` handler (clarity.py lines 84–111).  `apiKey` is the truth
value of `openai.api_key`. -/
def chat (apiKey : Bool) (message : String) (session_id : Option String)
    (st : Store) (up : UpOutcome) : ChatResult :=
  if !apiKey then
    { reply := "⚠️ Server missing OPENAI_API_KEY.", store := st, sentMessages := none }
  else
    let sid := sidOf session_id
    let hist1 := st sid ++ [{ role := "user", content := message }]
    let trimmed := takeLast MAX_HISTORY_MESSAGES hist1
    let messages := { role := "system", content := SYSTEM_PROMPT } :: trimmed
    let reply := match up with
      | .ok text => pyStrip text
      | .err e => "⚠️ Upstream error: " ++ e
    let hist2 := hist1 ++ [{ role := "assistant", content := reply }]
    { reply := reply
      store := fun k => if k = sid then takeLast MAX_HISTORY_MESSAGES hist2 else st k
      sentMessages := some messages }

/-- Outcome of the streaming upstream call: the `content` token of each
chunk delivered (`none` when the chunk's delta is falsy or has no
`content` key), followed by either normal termination (`error = none`)
or a raised exception carrying `str(e)` (`error = some e`).  An exception
at `ChatCompletion.create` itself is `chunks = []`, `error = some e`. -/
structure StreamOutcome where
  chunks : List (Option String)
  error : Option String
deriving DecidableEq, Repr

/-- One server-sent event emitted by the generator: the `: heartbeat`
comment frame, a `data: <s>` frame, or the `data: [DONE]` frame. -/
inductive Ev where
  | heartbeat : Ev
  | data : String → Ev
  | done : Ev
deriving DecidableEq, Repr

/-- Result of a `/chat_stream` call once the generator has run to
completion: the ordered event frames, the store afterwards, and the
`messages` list sent upstream (`none` when no upstream call was made). -/
structure StreamResult where
  events : List Ev
  store : Store
  sentMessages : Option (List Msg)

/-- The `for chunk in stream` loop body (clarity.py lines 155–161):
`if token:` skips a `None` token and an empty-string token alike;
a truthy token is both emitted as a `data:` frame and appended to
`reply_parts`.  Returns (emitted frames, `reply_parts`). -/
def emitChunks : List (Option String) → List Ev × List String
  | [] => ([], [])
  | token :: rest =>
    let r := emitChunks rest
    match token with
    | some t => if t = "" then r else (Ev.data t :: r.1, t :: r.2)
    | none => r

/-- `"".join(reply_parts).strip()` for a given chunk sequence. -/
def fullOf (chunks : List (Option String)) : String :=
  pyStrip (String.join (emitChunks chunks).2)

/-- `_chat_stream_impl` together with its generator run to completion
(clarity.py lines 122–179).  The user turn is appended to the stored list
in place before the generator body; the `finally:` block persists the
stripped accumulated reply when non-empty (re-truncating the history)
and always emits the `[DONE]` frame. -/
def chatStream (apiKey : Bool) (message : String) (session_id : Option String)
    (st : Store) (up : StreamOutcome) : StreamResult :=
  if !apiKey then
    { events := [Ev.data "⚠️ Server missing OPENAI_API_KEY.", Ev.done]
      store := st
      sentMessages := none }
  else
    let sid := sidOf session_id
    let hist1 := st sid ++ [{ role := "user", content := message }]
    let trimmed := takeLast MAX_HISTORY_MESSAGES hist1
    let messages := { role := "system", content := SYSTEM_PROMPT } :: trimmed
    let p := emitChunks up.chunks
    let errEvents : List Ev := match up.error with
      | some e => [Ev.data ("⚠️ Upstream error: " ++ e)]
      | none => []
    let full := pyStrip (String.join p.2)
    let events := Ev.heartbeat :: (p.1 ++ errEvents ++ [Ev.done])
    if full = "" then
      { events := events
        store := fun k => if k = sid then hist1 else st k
        sentMessages := some messages }
    else
      let hist2 := hist1 ++ [{ role := "assistant", content := full }]
      { events := events
        store := fun k => if k = sid then takeLast MAX_HISTORY_MESSAGES hist2 else st k
        sentMessages := some messages }

/-- The `/reset` handler (clarity.py lines 79–82). -/
def reset (session_id : Option String) (st : Store) : Store :=
  fun k => if k = sidOf session_id then [] else st k

/-- One completed inbound call, for sequencing store effects. -/
inductive Call where
  | chatCall (apiKey : Bool) (message : String) (session_id : Option String) (up : UpOutcome)
  | streamCall (apiKey : Bool) (message : String) (session_id : Option String) (up : StreamOutcome)
  | resetCall (session_id : Option String)

/-- Store effect of one completed call. -/
def runCall : Call → Store → Store
  | .chatCall key m s up, st => (chat key m s st up).store
  | .streamCall key m s up, st => (chatStream key m s st up).store
  | .resetCall s, st => reset s st

/-- Store effect of a sequence of completed calls, in order. -/
def runCalls : List Call → Store → Store
  | [], st => st
  | c :: cs, st => runCalls cs (runCall c st)

/-- A call re-establishes the history bound unless it is a credentialed
streaming call whose stripped accumulated reply is empty (that path skips
the trimmed write-back). -/
def callTrims : Call → Bool
  | .chatCall .. => true
  | .resetCall .. => true
  | .streamCall key _ _ up => !key || !(fullOf up.chunks == "")

/-! ### Helper lemmas -/

theorem takeLast_length_le (n : Nat) (xs : List α) : (takeLast n xs).length ≤ n := by
  simp only [takeLast, List.length_drop]
  omega

theorem takeLast_append_suffix (n : Nat) (l₁ l₂ : List α) (h : l₂.length ≤ n) :
    ∃ ys, takeLast n (l₁ ++ l₂) = ys ++ l₂ := by
  refine ⟨l₁.drop ((l₁.length + l₂.length) - n), ?_⟩
  have hk : (l₁.length + l₂.length) - n ≤ l₁.length := by omega
  simp only [takeLast, List.length_append]
  exact List.drop_append_of_le_length hk

theorem join_data (l : List String) :
    (String.join l).data = (l.map String.data).flatten := by
  rw [String.join_eq]

theorem emitChunks_parts_join (cs : List (Option String)) :
    String.join (emitChunks cs).2 = String.join (cs.filterMap id) := by
  apply String.ext
  rw [join_data, join_data]
  induction cs with
  | nil => rfl
  | cons c cs ih =>
    cases c with
    | none => simpa [emitChunks] using ih
    | some t =>
      by_cases h : t = ""
      · subst h
        simpa [emitChunks] using ih
      · simp [emitChunks, h, ih]

theorem emitChunks_map_some (fs : List String) :
    (emitChunks (fs.map some)).1
      = fs.filterMap (fun s => if s = "" then none else some (Ev.data s)) := by
  induction fs with
  | nil => rfl
  | cons s fs ih =>
    by_cases h : s = "" <;> simp [emitChunks, h, ih]

theorem emitChunks_count_done (cs : List (Option String)) :
    (emitChunks cs).1.count Ev.done = 0 := by
  induction cs with
  | nil => rfl
  | cons c cs ih =>
    cases c with
    | none => simpa [emitChunks] using ih
    | some t =>
      by_cases h : t = ""
      · simpa [emitChunks, h] using ih
      · simpa [emitChunks, h] using ih

theorem chat_store_true (m : String) (s : Option String) (st : Store) (up : UpOutcome) :
    (chat true m s st up).store = fun k =>
      if k = sidOf s
      then takeLast MAX_HISTORY_MESSAGES
        ((st (sidOf s) ++ [⟨"user", m⟩]) ++ [⟨"assistant", (chat true m s st up).reply⟩])
      else st k := rfl

theorem chatStream_store_true (m : String) (s : Option String) (st : Store) (up : StreamOutcome) :
    (chatStream true m s st up).store = fun k =>
      if k = sidOf s
      then (if fullOf up.chunks = "" then st (sidOf s) ++ [⟨"user", m⟩]
            else takeLast MAX_HISTORY_MESSAGES
              ((st (sidOf s) ++ [⟨"user", m⟩]) ++ [⟨"assistant", fullOf up.chunks⟩]))
      else st k := by
  by_cases h : fullOf up.chunks = "" <;>
    simp only [chatStream, fullOf] at h ⊢ <;>
    simp [h]

theorem chatStream_events_true (m : String) (s : Option String) (st : Store) (up : StreamOutcome) :
    (chatStream true m s st up).events =
      Ev.heartbeat :: ((emitChunks up.chunks).1 ++
        (match up.error with
         | some e => [Ev.data ("⚠️ Upstream error: " ++ e)]
         | none => []) ++ [Ev.done]) := by
  by_cases h : fullOf up.chunks = "" <;>
    simp only [chatStream, fullOf] at h ⊢ <;>
    simp [h]

theorem chatStream_sent_true (m : String) (s : Option String) (st : Store) (up : StreamOutcome) :
    (chatStream true m s st up).sentMessages =
      some ({ role := "system", content := SYSTEM_PROMPT } ::
        takeLast MAX_HISTORY_MESSAGES (st (sidOf s) ++ [⟨"user", m⟩])) := by
  by_cases h : fullOf up.chunks = "" <;>
    simp only [chatStream, fullOf] at h ⊢ <;>
    simp [h]

theorem fullOf_eq (cs : List (Option String)) :
    fullOf cs = pyStrip (String.join (cs.filterMap id)) := by
  rw [fullOf, emitChunks_parts_join]

theorem fullOf_map_some (fs : List String) :
    fullOf (fs.map some) = pyStrip (String.join fs) := by
  rw [fullOf_eq]
  simp

theorem emitChunks_skip (c₁ c₂ : List (Option String)) :
    emitChunks (c₁ ++ some "" :: c₂) = emitChunks (c₁ ++ none :: c₂) := by
  induction c₁ with
  | nil => simp [emitChunks]
  | cons c c₁ ih => cases c <;> simp [emitChunks, ih]

theorem runCall_length (c : Call) (st : Store) (h : callTrims c = true)
    (h2 : ∀ sid, (st sid).length ≤ MAX_HISTORY_MESSAGES) :
    ∀ sid, ((runCall c st) sid).length ≤ MAX_HISTORY_MESSAGES := by
  intro sid
  cases c with
  | chatCall key m s up =>
    cases key with
    | false => exact h2 sid
    | true =>
      simp only [runCall]
      rw [chat_store_true]
      by_cases hk : sid = sidOf s
      · simp only [hk, if_pos]
        exact takeLast_length_le _ _
      · simp only [if_neg hk]
        exact h2 sid
  | streamCall key m s up =>
    cases key with
    | false => exact h2 sid
    | true =>
      simp only [runCall]
      rw [chatStream_store_true]
      simp only [callTrims, Bool.not_true, Bool.false_or] at h
      have hf : fullOf up.chunks ≠ "" := by simpa using h
      by_cases hk : sid = sidOf s
      · simp only [hk, if_pos, if_neg hf]
        exact takeLast_length_le _ _
      · simp only [if_neg hk]
        exact h2 sid
  | resetCall s =>
    simp only [runCall, reset]
    by_cases hk : sid = sidOf s
    · simp [hk]
    · simp only [if_neg hk]
      exact h2 sid

/-! ### Claim theorems -/

/-- C6: for every non-streaming `/chat` call with a configured credential
whose upstream call fails (any exception: network error, timeout, malformed
payload), the handler returns a normal reply payload whose text is the
human-readable fallback embedding the error detail — it never raises
(`chat` is total, and the error branch produces a reply). -/
theorem C6_error_fallback (msg : String) (sid : Option String) (st : Store) (e : String) :
    (chat true msg sid st (.err e)).reply = "⚠️ Upstream error: " ++ e := rfl

/-- C7: with no upstream credential configured, `/chat` returns the fixed
warning reply and `/chat_stream` emits a single warning fragment followed
by the end-of-stream marker; neither touches the store nor sends any
`messages` upstream (`sentMessages = none`). -/
theorem C7_missing_key (msg : String) (sid : Option String) (st : Store)
    (up : UpOutcome) (sup : StreamOutcome) :
    (chat false msg sid st up).reply = "⚠️ Server missing OPENAI_API_KEY." ∧
    (chat false msg sid st up).sentMessages = none ∧
    (chat false msg sid st up).store = st ∧
    (chatStream false msg sid st sup).events
      = [Ev.data "⚠️ Server missing OPENAI_API_KEY.", Ev.done] ∧
    (chatStream false msg sid st sup).sentMessages = none ∧
    (chatStream false msg sid st sup).store = st :=
  ⟨rfl, rfl, rfl, rfl, rfl, rfl⟩

/-- C9: a request whose `session_id` is the empty string is handled
identically to one with the field absent (pydantic default `"default"`)
on all three endpoints, and both — like Python `None` — are coerced by
`or "default"` to the sentinel key `"default"`. -/
theorem C9_empty_session_id (key : Bool) (msg : String) (st : Store)
    (up : UpOutcome) (sup : StreamOutcome) :
    chat key msg (some "") st up = chat key msg (some "default") st up ∧
    chatStream key msg (some "") st sup = chatStream key msg (some "default") st sup ∧
    reset (some "") st = reset (some "default") st ∧
    sidOf (some "") = "default" ∧
    sidOf none = "default" :=
  ⟨rfl, rfl, rfl, rfl, rfl⟩

/-- C10: when the credentialed non-streaming call's upstream fails, the
session state is still mutated: the store ends up holding the last-`H`
window of the old history extended by the new user turn and an assistant
turn carrying the error-fallback text, and both of those turns are present
in the stored sequence. -/
theorem C10_error_mutates_state (msg : String) (sid : Option String) (st : Store) (e : String) :
    (chat true msg sid st (.err e)).store (sidOf sid)
      = takeLast MAX_HISTORY_MESSAGES
          (st (sidOf sid) ++ [⟨"user", msg⟩, ⟨"assistant", "⚠️ Upstream error: " ++ e⟩]) ∧
    (⟨"user", msg⟩ : Msg) ∈ (chat true msg sid st (.err e)).store (sidOf sid) ∧
    (⟨"assistant", "⚠️ Upstream error: " ++ e⟩ : Msg)
      ∈ (chat true msg sid st (.err e)).store (sidOf sid) := by
  have hstore : (chat true msg sid st (.err e)).store (sidOf sid)
      = takeLast MAX_HISTORY_MESSAGES
          (st (sidOf sid) ++ [⟨"user", msg⟩, ⟨"assistant", "⚠️ Upstream error: " ++ e⟩]) := by
    rw [chat_store_true]
    simp
    rfl
  refine ⟨hstore, ?_, ?_⟩ <;> rw [hstore]
  all_goals
    obtain ⟨ys, hys⟩ := takeLast_append_suffix
      MAX_HISTORY_MESSAGES (st (sidOf sid))
      [⟨"user", msg⟩, ⟨"assistant", "⚠️ Upstream error: " ++ e⟩]
      (by simp [MAX_HISTORY_MESSAGES])
    rw [hys]
    simp

/-- C8: for every credentialed call (streaming or not), the context sent
upstream is exactly one `system` turn with the fixed instruction string
followed by the last `H` turns of the history including the newly appended
user turn (truncation applied after appending, before the call); hence the
context never holds more than `H + 1` turns and ends with the new user turn. -/
theorem C8_prompt_context (msg : String) (sid : Option String) (st : Store)
    (up : UpOutcome) (sup : StreamOutcome) :
    (chat true msg sid st up).sentMessages
      = some (⟨"system", SYSTEM_PROMPT⟩ ::
          takeLast MAX_HISTORY_MESSAGES (st (sidOf sid) ++ [⟨"user", msg⟩])) ∧
    (chatStream true msg sid st sup).sentMessages
      = some (⟨"system", SYSTEM_PROMPT⟩ ::
          takeLast MAX_HISTORY_MESSAGES (st (sidOf sid) ++ [⟨"user", msg⟩])) ∧
    (⟨"system", SYSTEM_PROMPT⟩ ::
        takeLast MAX_HISTORY_MESSAGES (st (sidOf sid) ++ [⟨"user", msg⟩])).length
      ≤ MAX_HISTORY_MESSAGES + 1 ∧
    (⟨"system", SYSTEM_PROMPT⟩ ::
        takeLast MAX_HISTORY_MESSAGES (st (sidOf sid) ++ [⟨"user", msg⟩])).getLast?
      = some ⟨"user", msg⟩ := by
  refine ⟨rfl, chatStream_sent_true msg sid st sup, ?_, ?_⟩
  · simpa using Nat.succ_le_succ (takeLast_length_le MAX_HISTORY_MESSAGES _)
  · obtain ⟨ys, hys⟩ := takeLast_append_suffix
      MAX_HISTORY_MESSAGES (st (sidOf sid)) [⟨"user", msg⟩]
      (by simp [MAX_HISTORY_MESSAGES])
    rw [hys]
    rw [show (⟨"system", SYSTEM_PROMPT⟩ : Msg) :: (ys ++ [⟨"user", msg⟩])
        = ((⟨"system", SYSTEM_PROMPT⟩ : Msg) :: ys) ++ [⟨"user", msg⟩] from rfl]
    exact List.getLast?_concat _

/-- C1 counterexample: five completed streaming calls whose upstream raises
before any fragment leave the session `"s"` with five stored turns — the
window bound `H = MAX_HISTORY_MESSAGES = 4` is exceeded, refuting the claim
that the stored turn sequence never exceeds `H` after any sequence of
completed chat calls. -/
theorem C1_cex :
    MAX_HISTORY_MESSAGES <
      ((runCalls (List.replicate 5 (.streamCall true "hi" (some "s") ⟨[], some "boom"⟩))
          (fun _ => [])) "s").length := by
  decide

/-- C1 (amended): the stored turn sequence never exceeds
`H = MAX_HISTORY_MESSAGES` after any sequence of completed calls in which
every credentialed streaming call's stripped accumulated reply is nonempty
(`callTrims`); a credentialed streaming call whose accumulated reply strips
to empty skips the trimmed write-back and can break the bound. -/
theorem C1_window_bound (cs : List Call) (st : Store)
    (h1 : ∀ c ∈ cs, callTrims c = true)
    (h2 : ∀ sid, (st sid).length ≤ MAX_HISTORY_MESSAGES) :
    ∀ sid, ((runCalls cs st) sid).length ≤ MAX_HISTORY_MESSAGES := by
  induction cs generalizing st with
  | nil => exact h2
  | cons c cs ih =>
    exact ih (runCall c st)
      (fun c' hc' => h1 c' (List.mem_cons_of_mem _ hc'))
      (runCall_length c st (h1 c (List.mem_cons_self _ _)) h2)

/-- C1 witness: the amended bound applied to a concrete call sequence
(a credentialed chat call, a credentialed streaming call with a nonempty
fragment, and a reset) starting from the empty store. -/
theorem C1_window_bound_witness :
    ((runCalls
        [.chatCall true "a" (some "s") (.ok "r"),
         .streamCall true "b" (some "s") ⟨[some "x"], none⟩,
         .resetCall (some "t")]
        (fun _ => [])) "s").length ≤ MAX_HISTORY_MESSAGES :=
  C1_window_bound _ _ (by decide) (fun _ => Nat.zero_le _) "s"

/-- C2 counterexample: a stream whose single chunk carries the empty-string
fragment emits no `data` event for it — `if token:` suppresses the empty
string — refuting the claim that present-but-empty fragments are emitted. -/
theorem C2_cex :
    Ev.data "" ∉ (chatStream true "q" (some "s") (fun _ => []) ⟨[some ""], none⟩).events ∧
    (chatStream true "q" (some "s") (fun _ => []) ⟨[some ""], none⟩).events
      = [Ev.heartbeat, Ev.done] := by
  decide

/-- C2 (amended): an empty-string fragment is treated exactly like an
absent/null fragment — it is neither emitted nor accumulated, so the call
result is unchanged when one is replaced by the other. -/
theorem C2_empty_fragment (key : Bool) (msg : String) (sid : Option String) (st : Store)
    (c₁ c₂ : List (Option String)) (err : Option String) :
    chatStream key msg sid st ⟨c₁ ++ some "" :: c₂, err⟩
      = chatStream key msg sid st ⟨c₁ ++ none :: c₂, err⟩ := by
  cases key with
  | false => rfl
  | true => simp only [chatStream, emitChunks_skip]

/-- C3 counterexample: a successfully completed stream whose single
fragment is `"hi "` persists the stripped text `"hi"` — not the
concatenation `"hi "` — as the assistant turn, refuting the claim that the
exact concatenation of the fragments is persisted. -/
theorem C3_cex :
    (chatStream true "q" (some "s") (fun _ => []) ⟨[some "hi "], none⟩).events
      = [Ev.heartbeat, Ev.data "hi ", Ev.done] ∧
    (chatStream true "q" (some "s") (fun _ => []) ⟨[some "hi "], none⟩).store "s"
      = [⟨"user", "q"⟩, ⟨"assistant", "hi"⟩] ∧
    (chatStream true "q" (some "s") (fun _ => []) ⟨[some "hi "], none⟩).store "s"
      ≠ [⟨"user", "q"⟩, ⟨"assistant", "hi "⟩] := by
  decide

/-- C3 (amended): for a credentialed streaming call whose upstream yields
fragments `fs` and completes without error, the emitted events are the
heartbeat, then the nonempty fragments in order and unmodified, then exactly
one terminal end marker; and the whitespace-stripped concatenation of the
fragments is persisted as the session's newest assistant turn when it is
nonempty (nothing is persisted when it strips to empty). -/
theorem C3_stream_success (msg : String) (sid : Option String) (st : Store) (fs : List String) :
    (chatStream true msg sid st ⟨fs.map some, none⟩).events
      = Ev.heartbeat ::
          ((fs.filterMap fun s => if s = "" then none else some (Ev.data s)) ++ [Ev.done]) ∧
    (chatStream true msg sid st ⟨fs.map some, none⟩).store (sidOf sid)
      = (if pyStrip (String.join fs) = ""
         then st (sidOf sid) ++ [⟨"user", msg⟩]
         else takeLast MAX_HISTORY_MESSAGES
           (st (sidOf sid) ++ [⟨"user", msg⟩, ⟨"assistant", pyStrip (String.join fs)⟩])) := by
  constructor
  · rw [chatStream_events_true]
    simp [emitChunks_map_some]
  · rw [chatStream_store_true]
    simp only [if_pos rfl, fullOf_map_some]
    by_cases h : pyStrip (String.join fs) = "" <;> simp [h, List.append_assoc]

/-- C4: for every completed streaming call the finalize step runs exactly
once on every exit path: the event stream ends with exactly one terminal
end marker (with or without a credential, with or without an upstream
error), and for a credentialed call the store is finalized exactly as the
`finally:` block prescribes — persist the stripped accumulated reply as the
newest assistant turn when nonempty, leave only the appended user turn
otherwise. -/
theorem C4_finalize_once (key : Bool) (msg : String) (sid : Option String) (st : Store)
    (up : StreamOutcome) :
    (chatStream key msg sid st up).events.count Ev.done = 1 ∧
    (chatStream key msg sid st up).events.getLast? = some Ev.done ∧
    (chatStream true msg sid st up).store (sidOf sid)
      = (if fullOf up.chunks = ""
         then st (sidOf sid) ++ [⟨"user", msg⟩]
         else takeLast MAX_HISTORY_MESSAGES
           (st (sidOf sid) ++ [⟨"user", msg⟩, ⟨"assistant", fullOf up.chunks⟩])) := by
  refine ⟨?_, ?_, ?_⟩
  · cases key with
    | false => rfl
    | true =>
      rw [chatStream_events_true]
      obtain ⟨chunks, error⟩ := up
      cases error <;>
        simp [List.count_cons, List.count_append, emitChunks_count_done]
  · cases key with
    | false => rfl
    | true =>
      rw [chatStream_events_true]
      rw [show Ev.heartbeat ::
            ((emitChunks up.chunks).1 ++
              (match up.error with
               | some e => [Ev.data ("⚠️ Upstream error: " ++ e)]
               | none => []) ++ [Ev.done])
          = (Ev.heartbeat ::
              ((emitChunks up.chunks).1 ++
                (match up.error with
                 | some e => [Ev.data ("⚠️ Upstream error: " ++ e)]
                 | none => []))) ++ [Ev.done] from rfl]
      exact List.getLast?_concat _
  · rw [chatStream_store_true]
    simp only [if_pos rfl]
    by_cases h : fullOf up.chunks = "" <;> simp [h, List.append_assoc]

/-- C5 counterexample: an upstream raise after the single fragment `"hi "`
still yields exactly one end marker, but the persisted assistant turn is
the stripped text `"hi"`, not the exact concatenation `"hi "` of the
fragments received before the failure. -/
theorem C5_cex :
    (chatStream true "q" (some "s") (fun _ => []) ⟨[some "hi "], some "boom"⟩).events
      = [Ev.heartbeat, Ev.data "hi ", Ev.data "⚠️ Upstream error: boom", Ev.done] ∧
    (chatStream true "q" (some "s") (fun _ => []) ⟨[some "hi "], some "boom"⟩).store "s"
      = [⟨"user", "q"⟩, ⟨"assistant", "hi"⟩] ∧
    (chatStream true "q" (some "s") (fun _ => []) ⟨[some "hi "], some "boom"⟩).store "s"
      ≠ [⟨"user", "q"⟩, ⟨"assistant", "hi "⟩] := by
  decide

/-- C5 (amended): when the credentialed upstream stream raises after
delivering some chunks, the event stream still ends with exactly one
terminal end marker, and the assistant turn persisted (when the stripped
accumulation is nonempty) is the whitespace-stripped concatenation of the
fragments received before the failure; the persisted store does not depend
on the error text, so the emitted error-description event is never part of
the persisted turn. -/
theorem C5_mid_stream_error (msg : String) (sid : Option String) (st : Store)
    (chunks : List (Option String)) (e e₂ : String) :
    (chatStream true msg sid st ⟨chunks, some e⟩).events.count Ev.done = 1 ∧
    (chatStream true msg sid st ⟨chunks, some e⟩).store (sidOf sid)
      = (if pyStrip (String.join (chunks.filterMap id)) = ""
         then st (sidOf sid) ++ [⟨"user", msg⟩]
         else takeLast MAX_HISTORY_MESSAGES
           (st (sidOf sid) ++ [⟨"user", msg⟩,
             ⟨"assistant", pyStrip (String.join (chunks.filterMap id))⟩])) ∧
    (chatStream true msg sid st ⟨chunks, some e⟩).store
      = (chatStream true msg sid st ⟨chunks, some e₂⟩).store := by
  refine ⟨?_, ?_, ?_⟩
  · rw [chatStream_events_true]
    simp [List.count_cons, List.count_append, emitChunks_count_done]
  · rw [chatStream_store_true]
    simp only [if_pos rfl, fullOf_eq]
    by_cases h : pyStrip (String.join (chunks.filterMap id)) = "" <;>
      simp [h, List.append_assoc]
  · rw [chatStream_store_true, chatStream_store_true]

end Clarity
